import Mathlib

/- Shallow embedding of the WhatsApp order backend (`index.js`; the repository
ships two near-identical copies of the file, modelled side by side below as
copy 1 and copy 2).  JavaScript values are modelled by `JSValue`, JavaScript
numbers by `JSNum` (NaN, the two infinities, and finite values as exact
rationals; IEEE-754 rounding and overflow are not modelled, which is exact for
every in-range catalog computation appearing here), and JavaScript exceptions
by `Except JSError`. -/

inductive JSError where
  | typeError
  | syntaxError
  | serviceError
  deriving DecidableEq

inductive JSNum where
  | nan
  | posInf
  | negInf
  | fin (q : ℚ)
  deriving DecidableEq

/- JavaScript multiplication on numbers.  Finite times finite is exact
rational multiplication (no overflow to infinity is modelled). -/
def jsnumMul : JSNum → JSNum → JSNum
  | .nan, _ => .nan
  | _, .nan => .nan
  | .posInf, .posInf => .posInf
  | .posInf, .negInf => .negInf
  | .negInf, .posInf => .negInf
  | .negInf, .negInf => .posInf
  | .posInf, .fin q => if q = 0 then .nan else if 0 < q then .posInf else .negInf
  | .fin q, .posInf => if q = 0 then .nan else if 0 < q then .posInf else .negInf
  | .negInf, .fin q => if q = 0 then .nan else if 0 < q then .negInf else .posInf
  | .fin q, .negInf => if q = 0 then .nan else if 0 < q then .negInf else .posInf
  | .fin a, .fin b => .fin (a * b)

def jsnumTruthy : JSNum → Bool
  | .nan => false
  | .fin q => decide (q ≠ 0)
  | _ => true

inductive JSValue where
  | undefined
  | null
  | bool (b : Bool)
  | num (n : JSNum)
  | str (s : String)
  | arr (elems : List JSValue)
  | obj (fields : List (String × JSValue))

/- JavaScript truthiness: undefined, null, false, NaN, 0 and "" are falsy
(negative zero is not a separate rational); everything else, including empty
arrays and empty objects, is truthy. -/
def truthy : JSValue → Bool
  | .undefined => false
  | .null => false
  | .bool b => b
  | .num n => jsnumTruthy n
  | .str s => decide (s ≠ "")
  | .arr _ => true
  | .obj _ => true

def lookupField : List (String × JSValue) → String → JSValue
  | [], _ => .undefined
  | (k, v) :: rest, key => if k = key then v else lookupField rest key

/- Replace any earlier binding of `key`, as JavaScript property assignment
does; used when building objects from parsed JSON members. -/
def setField (fields : List (String × JSValue)) (key : String) (v : JSValue) :
    List (String × JSValue) :=
  (fields.filter (fun kv => kv.1 ≠ key)) ++ [(key, v)]

/- Property read `v[key]`.  Reading a property of `undefined` or `null`
throws a TypeError; reading an absent property of anything else yields
`undefined`.  Built-in properties of primitives (such as `"x".length`) are
not modelled: no handler reads one. -/
def jsGetField : JSValue → String → Except JSError JSValue
  | .undefined, _ => .error .typeError
  | .null, _ => .error .typeError
  | .obj fields, key => .ok (lookupField fields key)
  | _, _ => .ok .undefined

/- Index read `v[i]` for a numeric literal index. -/
def jsIndex : JSValue → Nat → Except JSError JSValue
  | .undefined, _ => .error .typeError
  | .null, _ => .error .typeError
  | .arr l, i => .ok (l.getD i .undefined)
  | .str s, i =>
      .ok (match s.data.get? i with
           | some c => .str (String.mk [c])
           | none => .undefined)
  | .obj fields, i => .ok (lookupField fields (toString i))
  | _, _ => .ok .undefined

/- JavaScript default case conversion, modelled on the ASCII range plus the
asymmetric non-ASCII simple mappings that decide the catalog claims:
`toUpperCase` maps U+017F LATIN SMALL LETTER LONG S to the ASCII S (while
`toLowerCase` leaves it unchanged), and `toLowerCase` maps U+212A KELVIN
SIGN to the ASCII k.  The rest of the Unicode simple case table maps
non-ASCII letters to non-ASCII letters and cannot reach an ASCII catalog
key, so it is left as the identity here. -/
def jsCharToLower (c : Char) : Char :=
  if 65 ≤ c.toNat ∧ c.toNat ≤ 90 then Char.ofNat (c.toNat + 32)
  else if c.toNat = 8490 then Char.ofNat 107
  else c

def jsCharToUpper (c : Char) : Char :=
  if 97 ≤ c.toNat ∧ c.toNat ≤ 122 then Char.ofNat (c.toNat - 32)
  else if c.toNat = 383 then Char.ofNat 83
  else c

def jsToLower (s : String) : String := String.mk (s.data.map jsCharToLower)

def jsToUpper (s : String) : String := String.mk (s.data.map jsCharToUpper)

/- Method call `v.toLowerCase()`: a TypeError on `undefined`/`null` (no such
property) and on every other non-string (the property is not a function). -/
def jsCallToLowerCase : JSValue → Except JSError String
  | .str s => .ok (jsToLower s)
  | _ => .error .typeError

/- ---------- JSON (the `JSON.parse` call inside `parseOrderAI`) ---------- -/

def isJsonWs (c : Char) : Bool :=
  decide (c.toNat = 32 ∨ c.toNat = 9 ∨ c.toNat = 10 ∨ c.toNat = 13)

def skipWs (cs : List Char) : List Char := cs.dropWhile isJsonWs

def digitsToNat (ds : List Char) : Nat :=
  ds.foldl (fun a c => a * 10 + (c.toNat - 48)) 0

def hexVal (c : Char) : Option Nat :=
  if 48 ≤ c.toNat ∧ c.toNat ≤ 57 then some (c.toNat - 48)
  else if 97 ≤ c.toNat ∧ c.toNat ≤ 102 then some (c.toNat - 87)
  else if 65 ≤ c.toNat ∧ c.toNat ≤ 70 then some (c.toNat - 55)
  else none

/- String body after the opening quote.  Raw control characters are
rejected, as `JSON.parse` does.  `\u` escapes denoting surrogate halves are
not modelled (no input here contains them). -/
def parseStringRest : List Char → Option (List Char × List Char)
  | [] => none
  | '\\' :: 'u' :: h1 :: h2 :: h3 :: h4 :: r =>
      (match hexVal h1, hexVal h2, hexVal h3, hexVal h4 with
       | some a, some b, some c, some d =>
           let n := ((a * 16 + b) * 16 + c) * 16 + d
           if 55296 ≤ n ∧ n ≤ 57343 then none
           else (parseStringRest r).map (fun p => (Char.ofNat n :: p.1, p.2))
       | _, _, _, _ => none)
  | '\\' :: e :: r =>
      (match
        (match e with
         | '"' => some '"'
         | '\\' => some '\\'
         | '/' => some '/'
         | 'b' => some (Char.ofNat 8)
         | 'f' => some (Char.ofNat 12)
         | 'n' => some (Char.ofNat 10)
         | 'r' => some (Char.ofNat 13)
         | 't' => some (Char.ofNat 9)
         | _ => none) with
       | some c => (parseStringRest r).map (fun p => (c :: p.1, p.2))
       | none => none)
  | '"' :: r => some ([], r)
  | c :: r =>
      if c.toNat < 32 then none
      else (parseStringRest r).map (fun p => (c :: p.1, p.2))

def buildRat (neg : Bool) (intPart : Nat) (fracDs : List Char) (expNeg : Bool)
    (e : Nat) : ℚ :=
  let f := fracDs.length
  let m : Nat := intPart * 10 ^ f + digitsToNat fracDs
  let sm : Int := if neg then -(m : Int) else (m : Int)
  if expNeg then mkRat sm (10 ^ (f + e))
  else if e ≤ f then mkRat sm (10 ^ (f - e))
  else mkRat (sm * (10 : Int) ^ (e - f)) 1

def parseExpPart (neg : Bool) (intDs fracDs : List Char) :
    List Char → Option (ℚ × List Char)
  | cs =>
    let expNeg : Bool := match cs with | '-' :: _ => true | _ => false
    let cs1 := match cs with
      | '-' :: r => r
      | '+' :: r => r
      | _ => cs
    let eds := cs1.takeWhile (fun c => c.isDigit)
    if eds = [] then none
    else
      some (buildRat neg (digitsToNat intDs) fracDs expNeg (digitsToNat eds),
            cs1.dropWhile (fun c => c.isDigit))

def parseNumTail (neg : Bool) (intDs fracDs : List Char) :
    List Char → Option (ℚ × List Char)
  | 'e' :: r => parseExpPart neg intDs fracDs r
  | 'E' :: r => parseExpPart neg intDs fracDs r
  | cs => some (buildRat neg (digitsToNat intDs) fracDs false 0, cs)

/- JSON number grammar: an optional minus sign, an integer part with no
leading zero, an optional fraction, an optional exponent. -/
def parseJsonNumber (cs : List Char) : Option (ℚ × List Char) :=
  let neg : Bool := match cs with | '-' :: _ => true | _ => false
  let cs1 := match cs with | '-' :: r => r | _ => cs
  let intDs := cs1.takeWhile (fun c => c.isDigit)
  let cs2 := cs1.dropWhile (fun c => c.isDigit)
  if intDs = [] then none
  else if 2 ≤ intDs.length ∧ intDs.head? = some '0' then none
  else
    match cs2 with
    | '.' :: r =>
        let fracDs := r.takeWhile (fun c => c.isDigit)
        if fracDs = [] then none
        else parseNumTail neg intDs fracDs (r.dropWhile (fun c => c.isDigit))
    | _ => parseNumTail neg intDs [] cs2

/- One recursive descent over the input; the three modes are the three
recursive productions (value, array elements, object members).  Fuel makes
the recursion structural; `jsonParse` supplies more fuel than any input can
consume. -/
inductive JsonMode where
  | value
  | elems (acc : List JSValue)
  | members (acc : List (String × JSValue))

def parseCore : Nat → JsonMode → List Char → Option (JSValue × List Char)
  | 0, _, _ => none
  | Nat.succ fuel, .value, cs =>
    (match cs with
     | 'n' :: 'u' :: 'l' :: 'l' :: rest => some (.null, rest)
     | 't' :: 'r' :: 'u' :: 'e' :: rest => some (.bool true, rest)
     | 'f' :: 'a' :: 'l' :: 's' :: 'e' :: rest => some (.bool false, rest)
     | '"' :: rest => (parseStringRest rest).map (fun p => (.str (String.mk p.1), p.2))
     | '[' :: rest =>
        (match skipWs rest with
         | ']' :: r2 => some (.arr [], r2)
         | r1 => parseCore fuel (.elems []) r1)
     | '\x7b' :: rest =>
        (match skipWs rest with
         | '\x7d' :: r2 => some (.obj [], r2)
         | r1 => parseCore fuel (.members []) r1)
     | _ => (parseJsonNumber cs).map (fun p => (.num (.fin p.1), p.2)))
  | Nat.succ fuel, .elems acc, cs =>
    (match parseCore fuel .value cs with
     | none => none
     | some (v, rest) =>
       match skipWs rest with
       | ',' :: r2 => parseCore fuel (.elems (acc ++ [v])) (skipWs r2)
       | ']' :: r2 => some (.arr (acc ++ [v]), r2)
       | _ => none)
  | Nat.succ fuel, .members acc, cs =>
    (match cs with
     | '"' :: rest =>
       (match parseStringRest rest with
        | none => none
        | some (key, r1) =>
          match skipWs r1 with
          | ':' :: r2 =>
            (match parseCore fuel .value (skipWs r2) with
             | none => none
             | some (v, r3) =>
               let acc2 := setField acc (String.mk key) v
               match skipWs r3 with
               | ',' :: r4 => parseCore fuel (.members acc2) (skipWs r4)
               | '\x7d' :: r4 => some (.obj acc2, r4)
               | _ => none)
          | _ => none)
     | _ => none)

/- `JSON.parse`: whole-input parse; anything else throws a SyntaxError. -/
def jsonParse (s : String) : Except JSError JSValue :=
  match parseCore (2 * s.length + 4) .value (skipWs s.data) with
  | some (v, rest) => if skipWs rest = [] then .ok v else .error .syntaxError
  | none => .error .syntaxError

/- ---------- JavaScript ToNumber (used by `price * quantity`) ---------- -/

/- `Number(string)`: trimmed empty string is 0, `Infinity` forms, otherwise
a decimal literal (leading zeros and a bare trailing dot allowed, unlike
JSON).  Hex/octal/binary string literals are not modelled: no input here
contains one. -/
def strToNumber (s : String) : JSNum :=
  let cs := ((s.data.dropWhile isJsonWs).reverse.dropWhile isJsonWs).reverse
  if cs = [] then .fin 0
  else if cs = "Infinity".data ∨ cs = "+Infinity".data then .posInf
  else if cs = "-Infinity".data then .negInf
  else
    let neg : Bool := match cs with | '-' :: _ => true | _ => false
    let cs1 := match cs with
      | '-' :: r => r
      | '+' :: r => r
      | _ => cs
    let intDs := cs1.takeWhile (fun c => c.isDigit)
    let cs2 := cs1.dropWhile (fun c => c.isDigit)
    match cs2 with
    | '.' :: r =>
        let fracDs := r.takeWhile (fun c => c.isDigit)
        if intDs = [] ∧ fracDs = [] then .nan
        else
          match parseNumTail neg intDs fracDs (r.dropWhile (fun c => c.isDigit)) with
          | some (q, []) => .fin q
          | _ => .nan
    | _ =>
        if intDs = [] then .nan
        else
          match parseNumTail neg intDs [] cs2 with
          | some (q, []) => .fin q
          | _ => .nan

/- ToNumber coercion, as applied by `*` to its operands.  For objects and
arrays the ToPrimitive round trip (for example `[] → "" → 0`) is not
modelled and NaN is returned; no theorem below depends on that case. -/
def jsToNumber : JSValue → JSNum
  | .undefined => .nan
  | .null => .fin 0
  | .bool true => .fin 1
  | .bool false => .fin 0
  | .num n => n
  | .str s => strToNumber s
  | .arr _ => .nan
  | .obj _ => .nan

/- ---------- Catalog and pricing (copy 1, `index.js` lines 27-149) ------- -/

structure ProductEntry where
  price : ℚ
  deriving DecidableEq

def PRODUCTS : List (String × ProductEntry) :=
  [("sugar", ⟨40⟩), ("oil", ⟨120⟩), ("rice", ⟨60⟩)]

def assocFind : List (String × ProductEntry) → String → Option ProductEntry
  | [], _ => none
  | (k, v) :: rest, key => if k = key then some v else assocFind rest key

/- The members every object literal inherits from `Object.prototype`:
property reads of these keys on `PRODUCTS` yield a truthy function (or, for
the last one, the prototype object itself), not `undefined`. -/
def OBJECT_PROTOTYPE_MEMBERS : List String :=
  ["constructor", "hasOwnProperty", "isPrototypeOf", "propertyIsEnumerable",
   "toLocaleString", "toString", "valueOf", "__defineGetter__",
   "__defineSetter__", "__lookupGetter__", "__lookupSetter__", "__proto__"]

/- A catalog property read hits either an own entry (with a price) or an
inherited `Object.prototype` member — a truthy value with no `price`
property, so reading `.price` on it yields `undefined`. -/
inductive CatalogHit where
  | entry (e : ProductEntry)
  | protoMember
  deriving DecidableEq

/- `PRODUCTS[key]`: own keys first, then the prototype chain, else
`undefined` (modelled as `none`). -/
def productsGet (key : String) : Option CatalogHit :=
  match assocFind PRODUCTS key with
  | some e => some (.entry e)
  | none => if key ∈ OBJECT_PROTOTYPE_MEMBERS then some .protoMember else none

/- `PRODUCTS[name.toLowerCase()]`. -/
def catalogLookup (name : String) : Option CatalogHit :=
  productsGet (jsToLower name)

/- The external model call inside `parseOrderAI`: either the service call
rejects (network failure, SDK error) or it yields a response text. -/
inductive ServiceResult where
  | unreachable
  | response (text : String)

/- The try-block of `parseOrderAI`: call the service, then
`JSON.parse(result.response.text())`. -/
def parseOrderAIBody : ServiceResult → Except JSError JSValue
  | .unreachable => .error .serviceError
  | .response text => jsonParse text

/- `parseOrderAI`: any exception in the body is caught and `null` is
returned. -/
def parseOrderAI (svc : ServiceResult) : JSValue :=
  match parseOrderAIBody svc with
  | .ok v => v
  | .error _ => .null

structure Order where
  product : JSValue
  quantity : JSValue
  unit : JSValue
  price : ℚ
  total : JSNum

/- The order object built when the catalog lookup hit an inherited
`Object.prototype` member: `product.price` is `undefined`, so
`total = product.price * parsed.quantity` is NaN. -/
structure InheritedOrder where
  product : JSValue
  quantity : JSValue
  unit : JSValue
  total : JSNum

inductive PricingOutcome where
  | extractionFailed
  | productNotFound
  | fault (e : JSError)
  | priced (o : Order)
  | pricedInherited (o : InheritedOrder)

/- Lines 132-149 of the handler: the `!parsed` check, the catalog lookup at
`PRODUCTS[parsed.product.toLowerCase()]`, and the order construction with
`total: product.price * parsed.quantity`.  The `quantity`/`unit` reads are
hoisted before the catalog check; on a truthy `parsed` a property read
cannot throw, so this is observation-equivalent to the source order. -/
def priceOrder (parsed : JSValue) : PricingOutcome :=
  if truthy parsed then
    match jsGetField parsed "product" with
    | .error e => .fault e
    | .ok pname =>
      match jsCallToLowerCase pname with
      | .error e => .fault e
      | .ok key =>
        match jsGetField parsed "quantity", jsGetField parsed "unit" with
        | .error e, _ => .fault e
        | _, .error e => .fault e
        | .ok qty, .ok u =>
          match productsGet key with
          | none => .productNotFound
          | some .protoMember =>
            .pricedInherited { product := pname, quantity := qty, unit := u,
                               total := jsnumMul (jsToNumber .undefined)
                                 (jsToNumber qty) }
          | some (.entry entry) =>
            .priced { product := pname, quantity := qty, unit := u,
                      price := entry.price,
                      total := jsnumMul (.fin entry.price) (jsToNumber qty) }
  else .extractionFailed

/- ---------- Webhook handlers (copy 1) ---------- -/

/- Observable outbound effects of one POST invocation.  Outbound sends and
invoice rendering are modelled as succeeding; a rejected send would surface
as status 500 through the same catch, which no claim exercises. -/
inductive OutAction where
  | sendText (recipient : JSValue) (text : String)
  | makeInvoice (o : Order)
  | confirmText (recipient : JSValue) (o : Order)
  | sendDocument (recipient : JSValue) (o : Order)
  | makeInvoiceInherited (o : InheritedOrder)
  | confirmTextInherited (recipient : JSValue) (o : InheritedOrder)
  | sendDocumentInherited (recipient : JSValue) (o : InheritedOrder)

structure HandlerResult where
  status : Nat
  actions : List OutAction

/- The guard `data.entry && data.entry[0].changes &&
data.entry[0].changes[0].value.messages` followed by the reads of
`messages[0]`, `msg.from` and `msg.text?.body || ""`.  The source re-reads
the same pure property chains; the nested form below performs each read
once, which is observation-equivalent. -/
def extractMessage (data : JSValue) : Except JSError (Option (JSValue × JSValue)) := do
  let entry ← jsGetField data "entry"
  if truthy entry then
    let e0 ← jsIndex entry 0
    let changes ← jsGetField e0 "changes"
    if truthy changes then
      let c0 ← jsIndex changes 0
      let v ← jsGetField c0 "value"
      let messages ← jsGetField v "messages"
      if truthy messages then
        let msg ← jsIndex messages 0
        let sender ← jsGetField msg "from"
        let t ← jsGetField msg "text"
        let tb ← match t with
          | .undefined => pure JSValue.undefined
          | .null => pure JSValue.undefined
          | _ => jsGetField t "body"
        let text := if truthy tb then tb else JSValue.str ""
        pure (some (sender, text))
      else pure none
    else pure none
  else pure none

/- Lines 131-157: parse with the AI, then the pricing core, then the
per-outcome replies.  Copy 1 confirms with a text message. -/
def handleMessage (sender : JSValue) (svc : ServiceResult) : HandlerResult :=
  match priceOrder (parseOrderAI svc) with
  | .extractionFailed =>
      ⟨200, [.sendText sender "Sorry, I couldn\x27t understand the order."]⟩
  | .productNotFound => ⟨200, [.sendText sender "Product not found."]⟩
  | .fault _ => ⟨500, []⟩
  | .priced o => ⟨200, [.makeInvoice o, .confirmText sender o]⟩
  | .pricedInherited o => ⟨200, [.makeInvoiceInherited o, .confirmTextInherited sender o]⟩

/- The POST `/webhook/whatsapp` handler of copy 1: any exception inside the
try-block is caught and answered with status 500. -/
def postWebhook (body : JSValue) (svc : ServiceResult) : HandlerResult :=
  match extractMessage body with
  | .error _ => ⟨500, []⟩
  | .ok none => ⟨200, []⟩
  | .ok (some (sender, _text)) => handleMessage sender svc

/- ---------- Webhook verification (GET) ---------- -/

/- `req.query["hub.mode"]` etc.: an absent parameter is `undefined`,
a present one is a string (array-valued repeated parameters are not
modelled). -/
structure VerifyQuery where
  mode : Option String
  token : Option String
  challenge : Option String

structure VerifyResult where
  status : Nat
  body : Option String
  deriving DecidableEq

def optTruthy : Option String → Bool
  | none => false
  | some s => decide (s ≠ "")

/- Copy 1 (lines 92-112): `if (mode && token)` then match/mismatch, else
400. -/
def getWebhook (secret : String) (q : VerifyQuery) : VerifyResult :=
  if optTruthy q.mode ∧ optTruthy q.token then
    if q.mode = some "subscribe" ∧ q.token = some secret then ⟨200, q.challenge⟩
    else ⟨403, none⟩
  else ⟨400, none⟩

/- Copy 2 (lines 259-268): a single match test, 403 otherwise. -/
def getWebhook2 (secret : String) (q : VerifyQuery) : VerifyResult :=
  if q.mode = some "subscribe" ∧ q.token = some secret then ⟨200, q.challenge⟩
  else ⟨403, none⟩

/- ---------- Copy 2 (`index.js` lines 172-339) ---------- -/

/- Product list of the second copy (lines 194-198). -/
def PRODUCTS2 : List (String × ProductEntry) :=
  [("sugar", ⟨40⟩), ("oil", ⟨120⟩), ("rice", ⟨60⟩)]

def productsGet2 (key : String) : Option CatalogHit :=
  match assocFind PRODUCTS2 key with
  | some e => some (.entry e)
  | none => if key ∈ OBJECT_PROTOTYPE_MEMBERS then some .protoMember else none

/- `parseOrderAI` of the second copy (lines 201-221), textually identical to
copy 1. -/
def parseOrderAIBody2 : ServiceResult → Except JSError JSValue
  | .unreachable => .error .serviceError
  | .response text => jsonParse text

def parseOrderAI2 (svc : ServiceResult) : JSValue :=
  match parseOrderAIBody2 svc with
  | .ok v => v
  | .error _ => .null

/- Pricing core of the second copy (lines 287-304). -/
def priceOrder2 (parsed : JSValue) : PricingOutcome :=
  if truthy parsed then
    match jsGetField parsed "product" with
    | .error e => .fault e
    | .ok pname =>
      match jsCallToLowerCase pname with
      | .error e => .fault e
      | .ok key =>
        match jsGetField parsed "quantity", jsGetField parsed "unit" with
        | .error e, _ => .fault e
        | _, .error e => .fault e
        | .ok qty, .ok u =>
          match productsGet2 key with
          | none => .productNotFound
          | some .protoMember =>
            .pricedInherited { product := pname, quantity := qty, unit := u,
                               total := jsnumMul (jsToNumber .undefined)
                                 (jsToNumber qty) }
          | some (.entry entry) =>
            .priced { product := pname, quantity := qty, unit := u,
                      price := entry.price,
                      total := jsnumMul (.fin entry.price) (jsToNumber qty) }
  else .extractionFailed

/- Guard and message extraction of the second copy (lines 275-281),
textually identical to copy 1. -/
def extractMessage2 (data : JSValue) : Except JSError (Option (JSValue × JSValue)) := do
  let entry ← jsGetField data "entry"
  if truthy entry then
    let e0 ← jsIndex entry 0
    let changes ← jsGetField e0 "changes"
    if truthy changes then
      let c0 ← jsIndex changes 0
      let v ← jsGetField c0 "value"
      let messages ← jsGetField v "messages"
      if truthy messages then
        let msg ← jsIndex messages 0
        let sender ← jsGetField msg "from"
        let t ← jsGetField msg "text"
        let tb ← match t with
          | .undefined => pure JSValue.undefined
          | .null => pure JSValue.undefined
          | _ => jsGetField t "body"
        let text := if truthy tb then tb else JSValue.str ""
        pure (some (sender, text))
      else pure none
    else pure none
  else pure none

/- Copy 2 confirms by sending the rendered invoice document (lines
306-323) instead of the confirmation text that copy 1 sends. -/
def handleMessage2 (sender : JSValue) (svc : ServiceResult) : HandlerResult :=
  match priceOrder2 (parseOrderAI2 svc) with
  | .extractionFailed =>
      ⟨200, [.sendText sender "Sorry, I couldn\x27t understand the order."]⟩
  | .productNotFound => ⟨200, [.sendText sender "Product not found."]⟩
  | .fault _ => ⟨500, []⟩
  | .priced o => ⟨200, [.makeInvoice o, .sendDocument sender o]⟩
  | .pricedInherited o => ⟨200, [.makeInvoiceInherited o, .sendDocumentInherited sender o]⟩

def postWebhook2 (body : JSValue) (svc : ServiceResult) : HandlerResult :=
  match extractMessage2 body with
  | .error _ => ⟨500, []⟩
  | .ok none => ⟨200, []⟩
  | .ok (some (sender, _text)) => handleMessage2 sender svc

/- Relates the two delivery styles: copy 2 replaces the confirmation text
of copy 1 by the document send and keeps every other effect. -/
def deliverAsDocument : OutAction → OutAction
  | .confirmText r o => .sendDocument r o
  | .confirmTextInherited r o => .sendDocumentInherited r o
  | a => a

/- ---------- Helper lemmas ---------- -/

theorem char_toNat_ofNat (n : Nat) (h : n.isValidChar) : (Char.ofNat n).toNat = n := by
  rw [Char.ofNat, dif_pos h]; rfl

theorem jsCharToLower_fixed (x : Char)
    (h1 : ¬(65 ≤ x.toNat ∧ x.toNat ≤ 90)) (h2 : ¬ x.toNat = 8490) :
    jsCharToLower x = x := by
  unfold jsCharToLower
  rw [if_neg h1, if_neg h2]

theorem jsCharToLower_range (c : Char) :
    ¬(65 ≤ (jsCharToLower c).toNat ∧ (jsCharToLower c).toNat ≤ 90) ∧
    ¬ (jsCharToLower c).toNat = 8490 := by
  unfold jsCharToLower
  by_cases h1 : 65 ≤ c.toNat ∧ c.toNat ≤ 90
  · rw [if_pos h1]
    have hnat : (Char.ofNat (c.toNat + 32)).toNat = c.toNat + 32 :=
      char_toNat_ofNat _ (Or.inl (by omega))
    omega
  · rw [if_neg h1]
    by_cases h2 : c.toNat = 8490
    · rw [if_pos h2]
      have hnat : (Char.ofNat 107).toNat = 107 :=
        char_toNat_ofNat _ (Or.inl (by omega))
      omega
    · rw [if_neg h2]
      omega

theorem jsCharToLower_jsCharToLower (c : Char) :
    jsCharToLower (jsCharToLower c) = jsCharToLower c :=
  jsCharToLower_fixed _ (jsCharToLower_range c).1 (jsCharToLower_range c).2

theorem jsCharToLower_jsCharToUpper_ascii (c : Char) (ha : c.toNat < 128) :
    jsCharToLower (jsCharToUpper c) = jsCharToLower c := by
  unfold jsCharToUpper
  by_cases h : 97 ≤ c.toNat ∧ c.toNat ≤ 122
  · rw [if_pos h]
    have hnat : (Char.ofNat (c.toNat - 32)).toNat = c.toNat - 32 :=
      char_toNat_ofNat _ (Or.inl (by omega))
    unfold jsCharToLower
    rw [if_pos (by omega), if_neg (by omega), if_neg (by omega), hnat]
    have h2 : c.toNat - 32 + 32 = c.toNat := by omega
    rw [h2, Char.ofNat_toNat]
  · rw [if_neg h, if_neg (by omega)]

theorem jsToLower_jsToLower (s : String) : jsToLower (jsToLower s) = jsToLower s := by
  show String.mk ((s.data.map jsCharToLower).map jsCharToLower) = _
  rw [List.map_map]
  have h : jsCharToLower ∘ jsCharToLower = jsCharToLower :=
    funext jsCharToLower_jsCharToLower
  rw [h]
  rfl

theorem jsToLower_jsToUpper_ascii (s : String) (ha : ∀ c ∈ s.data, c.toNat < 128) :
    jsToLower (jsToUpper s) = jsToLower s := by
  show String.mk ((s.data.map jsCharToUpper).map jsCharToLower) = _
  rw [List.map_map]
  exact congrArg String.mk
    (List.map_congr_left (fun c hc => jsCharToLower_jsCharToUpper_ascii c (ha c hc)))

theorem parseOrderAI2_eq (svc : ServiceResult) : parseOrderAI2 svc = parseOrderAI svc := rfl

theorem priceOrder2_eq (parsed : JSValue) : priceOrder2 parsed = priceOrder parsed := rfl

theorem extractMessage2_eq (b : JSValue) : extractMessage2 b = extractMessage b := rfl

/- ---------- Claims ---------- -/

/-- C1 counterexample: the candidate order with product "sugar" and quantity
0 is not rejected — the Pricing Engine produces a Priced Order with total 0,
so there is no terminal InvalidQuantity state for it. -/
theorem c1_counterexample_quantity_zero :
    priceOrder (.obj [("product", .str "sugar"), ("quantity", .num (.fin 0))]) =
      .priced ⟨.str "sugar", .num (.fin 0), .undefined, 40, .fin 0⟩ := by
  have h : priceOrder (.obj [("product", .str "sugar"), ("quantity", .num (.fin 0))]) =
      .priced ⟨.str "sugar", .num (.fin 0), .undefined, 40, .fin (40 * 0)⟩ := rfl
  rw [h]
  norm_num

/-- C1 (amended): the handler performs no quantity validation at all — there
is no InvalidQuantity state.  Whenever the product name matches a Catalog
Entry (any name, any letter case), a Priced Order is produced for every
quantity value, including missing, zero, negative and non-numeric ones, with
the quantity copied through unchanged and the unit price taken from the
matched entry. -/
theorem c1_amended_no_quantity_validation (name : String) (entry : ProductEntry)
    (qty : JSValue) (hc : catalogLookup name = some (.entry entry)) :
    ∃ o : Order,
      priceOrder (.obj [("product", .str name), ("quantity", qty)]) = .priced o ∧
      o.quantity = qty ∧ o.price = entry.price := by
  have hc2 : productsGet (jsToLower name) = some (.entry entry) := hc
  have ht : truthy (JSValue.obj [("product", .str name), ("quantity", qty)]) = true := rfl
  have hpf : jsGetField (JSValue.obj [("product", .str name), ("quantity", qty)])
      "product" = .ok (.str name) := rfl
  have hqf : jsGetField (JSValue.obj [("product", .str name), ("quantity", qty)])
      "quantity" = .ok qty := rfl
  have huf : jsGetField (JSValue.obj [("product", .str name), ("quantity", qty)])
      "unit" = .ok .undefined := rfl
  refine ⟨⟨.str name, qty, .undefined, entry.price,
          jsnumMul (.fin entry.price) (jsToNumber qty)⟩, ?_, rfl, rfl⟩
  unfold priceOrder
  rw [if_pos ht, hpf]
  dsimp only [jsCallToLowerCase]
  rw [hqf, huf]
  dsimp only []
  rw [hc2]

/-- C1 witness: the mixed-case product name Rice matches the catalog entry
with unit price 60, and even the non-numeric quantity "three" yields a
Priced Order carrying that quantity. -/
theorem c1_amended_no_quantity_validation_witness :
    ∃ o : Order,
      priceOrder (.obj [("product", .str "Rice"), ("quantity", .str "three")]) =
        .priced o ∧
      o.quantity = .str "three" ∧ o.price = 60 :=
  c1_amended_no_quantity_validation "Rice" ⟨60⟩ (.str "three") rfl

/-- C2: whenever the Pricing Engine produces a Priced Order whose quantity is
a finite number q, the total is exactly unitPrice * q, with no rounding (the
embedding computes in exact rationals). -/
theorem c2_total_exact (parsed : JSValue) (o : Order) (q : ℚ)
    (hp : priceOrder parsed = .priced o) (hq : o.quantity = .num (.fin q)) :
    o.total = .fin (o.price * q) := by
  unfold priceOrder at hp
  split at hp
  · split at hp
    · simp at hp
    · split at hp
      · simp at hp
      · split at hp
        · simp at hp
        · simp at hp
        · split at hp
          · simp at hp
          · simp at hp
          · cases hp
            simp only [Order.quantity] at hq
            subst hq
            rfl
  · simp at hp

/-- C2 witness: the sugar order with quantity 2 is priced with total exactly
40 * 2. -/
theorem c2_total_exact_witness :
    (⟨.str "sugar", .num (.fin 2), .str "kg", 40, .fin (40 * 2)⟩ : Order).total =
      .fin ((⟨.str "sugar", .num (.fin 2), .str "kg", 40, .fin (40 * 2)⟩ : Order).price * 2) :=
  c2_total_exact
    (.obj [("product", .str "sugar"), ("quantity", .num (.fin 2)), ("unit", .str "kg")])
    ⟨.str "sugar", .num (.fin 2), .str "kg", 40, .fin (40 * 2)⟩ 2 rfl rfl

/-- C4 counterexample: Unicode case conversion is asymmetric — toUpperCase
maps the long s (U+017F) to the ASCII S, while toLowerCase leaves it
unchanged, so looking up "ſugar" misses the Catalog while looking up its
uppercase form resolves to the sugar entry: the three lookups do not agree
on every string. -/
theorem c4_counterexample_unicode_uppercase :
    catalogLookup (jsToUpper "ſugar") = some (.entry ⟨40⟩) ∧
    catalogLookup "ſugar" = none :=
  ⟨rfl, rfl⟩

/-- C4 (amended): catalog lookup is case-invariant where the claim exercises
it — lowercasing never changes the result for any string, and for strings of
ASCII characters (such as "Sugar"/"sugar"/"SUGAR") uppercasing does not
either; outside ASCII, asymmetric Unicode case mappings (ſ to S) can change
the result. -/
theorem c4_amended_ascii_case_invariant (s : String) :
    catalogLookup (jsToLower s) = catalogLookup s ∧
    ((∀ c ∈ s.data, c.toNat < 128) → catalogLookup (jsToUpper s) = catalogLookup s) := by
  constructor
  · unfold catalogLookup
    rw [jsToLower_jsToLower]
  · intro ha
    unfold catalogLookup
    rw [jsToLower_jsToUpper_ascii s ha]

/-- C4 witness: the lookups of "Sugar", "sugar" and "SUGAR" agree. -/
theorem c4_amended_ascii_case_invariant_witness :
    catalogLookup (jsToLower "Sugar") = catalogLookup "Sugar" ∧
    catalogLookup (jsToUpper "Sugar") = catalogLookup "Sugar" :=
  ⟨(c4_amended_ascii_case_invariant "Sugar").1,
   (c4_amended_ascii_case_invariant "Sugar").2 (by decide)⟩

/-- C5 counterexample: a syntactically valid service response that lacks the
product field is not normalized to the ExtractionFailed outcome (`null`);
`parseOrderAI` returns the parsed object unchanged. -/
theorem c5_counterexample_missing_fields :
    parseOrderAI (.response "\x7b\"quantity\":2\x7d") =
      .obj [("quantity", .num (.fin 2))] ∧
    parseOrderAI (.response "\x7b\"quantity\":2\x7d") ≠ .null := by
  refine ⟨rfl, ?_⟩
  intro h
  exact JSValue.noConfusion h

/-- C5 (amended): the Order Extractor is total — every fault raised inside
its body (service unreachable, non-JSON response text) is caught and
normalized to the ExtractionFailed outcome `null`; a response that parses as
JSON is returned as parsed, even when fields are missing. -/
theorem c5_amended_faults_normalized (svc : ServiceResult) :
    (∀ e, parseOrderAIBody svc = .error e → parseOrderAI svc = .null) ∧
    (∀ v, parseOrderAIBody svc = .ok v → parseOrderAI svc = v) := by
  constructor
  · intro e h
    unfold parseOrderAI
    rw [h]
  · intro v h
    unfold parseOrderAI
    rw [h]

/-- C5 witness: non-JSON response text is normalized to `null`, and a JSON
response is returned as parsed. -/
theorem c5_amended_witness :
    parseOrderAI (.response "not json") = .null ∧
    parseOrderAI (.response "2") = .num (.fin 2) :=
  ⟨(c5_amended_faults_normalized (.response "not json")).1 .syntaxError rfl,
   (c5_amended_faults_normalized (.response "2")).2 (.num (.fin 2)) rfl⟩

/-- C6 counterexample: in the second copy of the GET handler, a request with
both hub.mode and hub.verify_token missing is answered with 403, not with
the 400 the claim states. -/
theorem c6_counterexample_missing_params :
    (getWebhook2 "testsecret" ⟨none, none, none⟩).status ≠ 400 := by decide

/-- C6 (amended): on matching mode and secret both GET handler copies answer
200 with the challenge verbatim; with both parameters present (non-empty)
but not matching, the first copy answers 403; with a parameter missing or
empty, the first copy answers 400; the second copy answers 403 in every
non-matching case, including missing parameters. -/
theorem c6_amended_verification_contract (secret : String) (q : VerifyQuery) :
    (q.mode = some "subscribe" → q.token = some secret → secret ≠ "" →
        getWebhook secret q = ⟨200, q.challenge⟩ ∧
        getWebhook2 secret q = ⟨200, q.challenge⟩) ∧
    (optTruthy q.mode = true → optTruthy q.token = true →
        ¬(q.mode = some "subscribe" ∧ q.token = some secret) →
        getWebhook secret q = ⟨403, none⟩) ∧
    ((optTruthy q.mode = false ∨ optTruthy q.token = false) →
        getWebhook secret q = ⟨400, none⟩) ∧
    (¬(q.mode = some "subscribe" ∧ q.token = some secret) →
        getWebhook2 secret q = ⟨403, none⟩) := by
  refine ⟨?_, ?_, ?_, ?_⟩
  · intro h1 h2 h3
    have hmt : optTruthy q.mode = true := by rw [h1]; rfl
    have htt : optTruthy q.token = true := by rw [h2]; exact decide_eq_true h3
    constructor
    · unfold getWebhook
      rw [if_pos ⟨hmt, htt⟩, if_pos ⟨h1, h2⟩]
    · unfold getWebhook2
      rw [if_pos ⟨h1, h2⟩]
  · intro hmt htt hne
    unfold getWebhook
    rw [if_pos ⟨hmt, htt⟩, if_neg hne]
  · intro hor
    have hno : ¬(optTruthy q.mode = true ∧ optTruthy q.token = true) := by
      rcases hor with h | h
      · intro hand; rw [hand.1] at h; simp at h
      · intro hand; rw [hand.2] at h; simp at h
    unfold getWebhook
    rw [if_neg hno]
  · intro hne
    unfold getWebhook2
    rw [if_neg hne]

/-- C6 witness: a matching verification request is answered 200 with the
challenge, and a request without hub.mode is answered 400 by the first
handler copy. -/
theorem c6_amended_verification_contract_witness :
    getWebhook "s3cret" ⟨some "subscribe", some "s3cret", some "challenge123"⟩ =
      ⟨200, some "challenge123"⟩ ∧
    getWebhook "s3cret" ⟨none, some "s3cret", none⟩ = ⟨400, none⟩ :=
  ⟨((c6_amended_verification_contract "s3cret"
      ⟨some "subscribe", some "s3cret", some "challenge123"⟩).1
      rfl rfl (by decide)).1,
   (c6_amended_verification_contract "s3cret" ⟨none, some "s3cret", none⟩).2.2.1
      (Or.inl rfl)⟩

/-- C7 counterexample: the JSON body with entry equal to the empty array
lacks the nested path to a message, yet the handler answers 500 (the guard
expression itself throws a TypeError), not the 200 the claim states. -/
theorem c7_counterexample_entry_empty_array :
    postWebhook (.obj [("entry", .arr [])]) .unreachable = ⟨500, []⟩ ∧
    (postWebhook (.obj [("entry", .arr [])]) .unreachable).status ≠ 200 := by
  exact ⟨rfl, by decide⟩

/-- C7 (amended): when the guard evaluates falsy without throwing, the
handler acknowledges with 200 and performs no action; when evaluating the
nested path itself throws (entry truthy but malformed below), the handler
answers 500 with no action. -/
theorem c7_amended_absent_path (body : JSValue) (svc : ServiceResult) :
    (extractMessage body = .ok none → postWebhook body svc = ⟨200, []⟩) ∧
    (∀ e, extractMessage body = .error e → postWebhook body svc = ⟨500, []⟩) := by
  constructor
  · intro h
    unfold postWebhook
    rw [h]
  · intro e h
    unfold postWebhook
    rw [h]

/-- C7 witness: an empty JSON body is acknowledged with 200 and no actions;
the body with entry equal to the empty array is answered 500 with no
actions. -/
theorem c7_amended_absent_path_witness :
    postWebhook (.obj []) .unreachable = ⟨200, []⟩ ∧
    postWebhook (.obj [("entry", .arr [])]) .unreachable = ⟨500, []⟩ :=
  ⟨(c7_amended_absent_path (.obj []) .unreachable).1 rfl,
   (c7_amended_absent_path (.obj [("entry", .arr [])]) .unreachable).2 .typeError rfl⟩

/-- C8: the candidate order extracted from "2 kg sugar" (product sugar,
quantity 2, unit kg) is priced against the Catalog entry sugar ↦ 40 to
a Priced Order with unitPrice 40 and total 80. -/
theorem c8_sugar_scenario :
    parseOrderAI (.response "\x7b\"product\":\"sugar\",\"quantity\":2,\"unit\":\"kg\"\x7d") =
      .obj [("product", .str "sugar"), ("quantity", .num (.fin 2)), ("unit", .str "kg")] ∧
    priceOrder (.obj [("product", .str "sugar"), ("quantity", .num (.fin 2)),
        ("unit", .str "kg")]) =
      .priced ⟨.str "sugar", .num (.fin 2), .str "kg", 40, .fin 80⟩ := by
  constructor
  · rfl
  · have h : priceOrder (.obj [("product", .str "sugar"), ("quantity", .num (.fin 2)),
        ("unit", .str "kg")]) =
        .priced ⟨.str "sugar", .num (.fin 2), .str "kg", 40, .fin (40 * 2)⟩ := rfl
    rw [h]
    norm_num

/-- C9: the two pipeline copies have behaviourally equal
extraction-and-pricing cores — same catalog, same extractor wrapper, same
pricing function — and their POST handlers agree on status and on every
effect up to replacing the text confirmation by the document delivery. -/
theorem c9_copies_equivalent :
    PRODUCTS2 = PRODUCTS ∧
    (∀ svc, parseOrderAI2 svc = parseOrderAI svc) ∧
    (∀ parsed, priceOrder2 parsed = priceOrder parsed) ∧
    (∀ body svc, postWebhook2 body svc =
        ⟨(postWebhook body svc).status,
         (postWebhook body svc).actions.map deliverAsDocument⟩) := by
  refine ⟨rfl, parseOrderAI2_eq, priceOrder2_eq, ?_⟩
  intro body svc
  unfold postWebhook2 postWebhook
  rw [extractMessage2_eq]
  cases hx : extractMessage body with
  | error e => rfl
  | ok o =>
    cases o with
    | none => rfl
    | some p =>
      cases p with
      | mk sender text =>
        dsimp only []
        unfold handleMessage2 handleMessage
        rw [priceOrder2_eq, parseOrderAI2_eq]
        cases hp : priceOrder (parseOrderAI svc) <;> rfl

/-- C10: a truthy extractor output without a product field — the well-formed
JSON object with only a quantity — makes the pricing step throw a TypeError
at `parsed.product.toLowerCase()`; the fault is caught only by the boundary
catch, which answers 500 with no user-facing message. -/
theorem c10_missing_product_field_typeerror :
    truthy (.obj [("quantity", .num (.fin 2))]) = true ∧
    priceOrder (.obj [("quantity", .num (.fin 2))]) = .fault .typeError ∧
    (∀ sender, handleMessage sender (.response "\x7b\"quantity\":2\x7d") = ⟨500, []⟩) ∧
    postWebhook
      (.obj [("entry", .arr [.obj [("changes", .arr [.obj [("value",
        .obj [("messages", .arr [.obj [("from", .str "911234567890"),
          ("text", .obj [("body", .str "two packets")])]])])]])]])])
      (.response "\x7b\"quantity\":2\x7d") = ⟨500, []⟩ := by
  exact ⟨rfl, rfl, fun sender => rfl, rfl⟩
